import Mathlib

/-
Verification of the loafer Slack-app library (loafer.go) against its
natural-language specification.

The development shallowly embeds the request authentication and
multi-tenant dispatch engine: the signature verifier (`checkSlackSecret`,
over an executable SHA-256 / HMAC-SHA256 model of Go's crypto libraries),
the workspace token registry (`findTokenForWorkspace`, `AddToken`), the
install exchange (`appInstall`), and the two dispatchers (`interactions`,
`commands`).  Handlers are opaque values of a type parameter `H`; invoking
a handler is a terminal outcome.  The HTTP server, routing and the
UI-block builders are outside the verified core.
-/

/-! ### SHA-256 and HMAC-SHA256 (model of Go's crypto/sha256 and crypto/hmac)

Bytes are `Nat` values below 256; 32-bit words are `Nat` values reduced
modulo `2 ^ 32` wherever overflow can occur. -/

/-- Reduce to a 32-bit word. -/
def w32 (n : Nat) : Nat := n % 4294967296

/-- Right rotation of a 32-bit word. -/
def rotr (n x : Nat) : Nat :=
  (x >>> n) + ((x % (2 ^ n)) * 2 ^ (32 - n))

def bigSigma0 (x : Nat) : Nat := rotr 2 x ^^^ rotr 13 x ^^^ rotr 22 x
def bigSigma1 (x : Nat) : Nat := rotr 6 x ^^^ rotr 11 x ^^^ rotr 25 x
def smallSigma0 (x : Nat) : Nat := rotr 7 x ^^^ rotr 18 x ^^^ (x >>> 3)
def smallSigma1 (x : Nat) : Nat := rotr 17 x ^^^ rotr 19 x ^^^ (x >>> 10)

def chFn (x y z : Nat) : Nat := (x &&& y) ^^^ ((x ^^^ 4294967295) &&& z)
def majFn (x y z : Nat) : Nat := (x &&& y) ^^^ (x &&& z) ^^^ (y &&& z)

/-- The SHA-256 round constants. -/
def sha256K : List Nat :=
  [1116352408, 1899447441, 3049323471, 3921009573, 961987163, 1508970993,
   2453635748, 2870763221, 3624381080, 310598401, 607225278, 1426881987,
   1925078388, 2162078206, 2614888103, 3248222580, 3835390401, 4022224774,
   264347078, 604807628, 770255983, 1249150122, 1555081692, 1996064986,
   2554220882, 2821834349, 2952996808, 3210313671, 3336571891, 3584528711,
   113926993, 338241895, 666307205, 773529912, 1294757372, 1396182291,
   1695183700, 1986661051, 2177026350, 2456956037, 2730485921, 2820302411,
   3259730800, 3345764771, 3516065817, 3600352804, 4094571909, 275423344,
   430227734, 506948616, 659060556, 883997877, 958139571, 1322822218,
   1537002063, 1747873779, 1955562222, 2024104815, 2227730452, 2361852424,
   2428436474, 2756734187, 3204031479, 3329325298]

/-- The SHA-256 initial hash value. -/
def sha256H0 : List Nat :=
  [1779033703, 3144134277, 1013904242, 2773480762,
   1359893119, 2600822924, 528734635, 1541459225]

/-- Group a byte list into big-endian 32-bit words. -/
def bytesToWords : List Nat → List Nat
  | b0 :: b1 :: b2 :: b3 :: rest => (((b0 * 256 + b1) * 256 + b2) * 256 + b3) :: bytesToWords rest
  | _ => []

/-- Append the next word of the SHA-256 message schedule. -/
def scheduleStep (w : List Nat) : List Nat :=
  let i := w.length
  w ++ [w32 (smallSigma1 (w.getD (i - 2) 0) + w.getD (i - 7) 0 +
             smallSigma0 (w.getD (i - 15) 0) + w.getD (i - 16) 0)]

/-- The 64-word message schedule of a 64-byte block. -/
def sha256Schedule (block : List Nat) : List Nat :=
  scheduleStep^[48] (bytesToWords block)

/-- One SHA-256 compression round. -/
def sha256Round (st : Nat × Nat × Nat × Nat × Nat × Nat × Nat × Nat) (kw : Nat × Nat) :
    Nat × Nat × Nat × Nat × Nat × Nat × Nat × Nat :=
  let (a, b, c, d, e, f, g, h) := st
  let t1 := w32 (h + bigSigma1 e + chFn e f g + kw.1 + kw.2)
  let t2 := w32 (bigSigma0 a + majFn a b c)
  (w32 (t1 + t2), a, b, c, w32 (d + t1), e, f, g)

/-- Process one 64-byte block into the running hash state. -/
def processBlock (hs : List Nat) (block : List Nat) : List Nat :=
  let w := sha256Schedule block
  let init := (hs.getD 0 0, hs.getD 1 0, hs.getD 2 0, hs.getD 3 0,
               hs.getD 4 0, hs.getD 5 0, hs.getD 6 0, hs.getD 7 0)
  let (a, b, c, d, e, f, g, h) := (sha256K.zip w).foldl sha256Round init
  [w32 (hs.getD 0 0 + a), w32 (hs.getD 1 0 + b), w32 (hs.getD 2 0 + c), w32 (hs.getD 3 0 + d),
   w32 (hs.getD 4 0 + e), w32 (hs.getD 5 0 + f), w32 (hs.getD 6 0 + g), w32 (hs.getD 7 0 + h)]

/-- A 64-bit big-endian byte encoding. -/
def be64 (n : Nat) : List Nat :=
  [n / 2 ^ 56 % 256, n / 2 ^ 48 % 256, n / 2 ^ 40 % 256, n / 2 ^ 32 % 256,
   n / 2 ^ 24 % 256, n / 2 ^ 16 % 256, n / 2 ^ 8 % 256, n % 256]

/-- SHA-256 padding: a 0x80 byte, zeros to 56 mod 64, then the bit length. -/
def sha256Pad (msg : List Nat) : List Nat :=
  let len := msg.length
  let k := (119 - len % 64) % 64
  msg ++ [0x80] ++ List.replicate k 0 ++ be64 (len * 8)

/-- Split a padded message into 64-byte blocks. -/
def sha256Blocks (padded : List Nat) : List (List Nat) :=
  (List.range (padded.length / 64)).map (fun i => (padded.drop (64 * i)).take 64)

/-- SHA-256 of a byte list.  The model was checked against the FIPS 180
test vectors for the empty string, "abc" and the 448-bit message. -/
def sha256 (msg : List Nat) : List Nat :=
  let final := (sha256Blocks (sha256Pad msg)).foldl processBlock sha256H0
  final.foldr (fun w acc => [w / 2 ^ 24 % 256, w / 2 ^ 16 % 256, w / 2 ^ 8 % 256, w % 256] ++ acc) []

/-- HMAC-SHA256 (RFC 2104), checked against the RFC 4231-style vector for
key "key" and the quick-brown-fox message. -/
def hmacSha256 (key msg : List Nat) : List Nat :=
  let k0 := if key.length > 64 then sha256 key else key
  let k := k0 ++ List.replicate (64 - k0.length) 0
  let ipad := k.map (fun b => b ^^^ 0x36)
  let opad := k.map (fun b => b ^^^ 0x5c)
  sha256 (opad ++ sha256 (ipad ++ msg))

/-- Lowercase hexadecimal digit. -/
def hexDigit (n : Nat) : Char :=
  if n < 10 then Char.ofNat (48 + n) else Char.ofNat (87 + n)

/-- Lowercase hexadecimal encoding of a byte list (Go's hex.EncodeToString). -/
def hexEncode (bytes : List Nat) : String :=
  ⟨bytes.foldr (fun b acc => hexDigit (b / 16 % 16) :: hexDigit (b % 16) :: acc) []⟩

/-- UTF-8 encoding of one character. -/
def utf8EncodeChar (c : Char) : List Nat :=
  let n := c.toNat
  if n < 0x80 then [n]
  else if n < 0x800 then [0xC0 + n / 64, 0x80 + n % 64]
  else if n < 0x10000 then [0xE0 + n / 4096, 0x80 + n / 64 % 64, 0x80 + n % 64]
  else [0xF0 + n / 262144, 0x80 + n / 4096 % 64, 0x80 + n / 64 % 64, 0x80 + n % 64]

/-- The UTF-8 bytes of a string (a Go string cast to a byte slice). -/
def utf8Encode (s : String) : List Nat :=
  s.data.foldr (fun c acc => utf8EncodeChar c ++ acc) []

/-- Go's strings.Join: concatenate with a separator between elements. -/
def goJoin (sep : String) : List String → String
  | [] => ""
  | [s] => s
  | s :: rest => s ++ sep ++ goJoin sep rest

/-! ### Data model (loafer.go structs)

Pointer-typed struct fields become `Option`; struct fields that the
verified core never reads (purely informational Slack payload fields and
the UI-block trees) are kept only where cheap.  Handlers are opaque
values of a type parameter `H`: the dispatcher's observable behaviour is
which handler it hands the request to, or which rejection it writes. -/

/-- SlackAuthToken - Slack App Auth Token. -/
structure SlackAuthToken where
  Workspace : String
  Token : String
deriving DecidableEq, Repr

/-- SlackAppOptions - Slack App options.  The route-prefix field is used
only by the HTTP-server wiring (`ServeApp`), which is outside the
verified core, and is omitted. -/
structure SlackAppOptions where
  Name : String
  Tokens : List SlackAuthToken
  ClientSecret : String
  ClientID : String
  SigningSecret : String

/-- SlackOauth2Team - Slack App Access Response Team. -/
structure SlackOauth2Team where
  Name : String
  ID : String

/-- SlackOauth2User - Slack App Access Response User. -/
structure SlackOauth2User where
  ID : String
  Scope : String
  AccessToken : String
  TokenType : String

/-- SlackOauth2Response - Slack App Access Response. -/
structure SlackOauth2Response where
  Ok : Bool
  AccessToken : String
  TokenType : String
  Scope : String
  BotUserID : String
  AppID : String
  Team : SlackOauth2Team
  Enterprise : SlackOauth2Team
  AuthedUser : SlackOauth2User

/-- SlackInteractionTeam - Slack Interaction Team. -/
structure SlackInteractionTeam where
  ID : String
  Domain : String
deriving DecidableEq

/-- SlackInteractionAction - Slack Interaction Action (UI text omitted). -/
structure SlackInteractionAction where
  ActionID : String
  BlockID : String
  Value : String
  type : String
  ActionTS : String
deriving DecidableEq

/-- SlackInteractionView - Slack Interaction View (fields the dispatcher
never reads are omitted). -/
structure SlackInteractionView where
  ID : String
  TeamID : String
  type : String
  CallbackID : String
deriving DecidableEq

/-- SlackInteractionEvent - Slack Interaction Event.  `Team` and `View`
are pointers in the source, hence `Option` here. -/
structure SlackInteractionEvent where
  type : String
  Token : String
  TriggerID : String
  Team : Option SlackInteractionTeam
  Actions : List SlackInteractionAction
  View : Option SlackInteractionView
  CallbackID : String
deriving DecidableEq

/-- SlackApp - A simple slack app starter kit.  The five handler
registries are association lists standing for Go maps; `distCB` models
the post-install callback (its request/response handles carry no
information the model tracks, so the model passes it only the decoded
OAuth2 response and keeps its boolean "suppress default page" result). -/
structure SlackApp (H : Type) where
  opts : SlackAppOptions
  distCB : Option (SlackOauth2Response → Bool)
  cmds : List (String × H)
  shortcutListeners : List (String × H)
  actionListeners : List (String × H)
  submitListeners : List (String × H)
  closeListeners : List (String × H)

/-- An inbound HTTP request as the two dispatchers see it: the two Slack
headers and the raw body (`none` models a body whose read fails). -/
structure Request where
  XSlackSignature : String
  XSlackRequestTimeStamp : String
  body : Option String

/-- What a dispatcher does with a request: write a rejection (status and
diagnostic body), hand the request to a registered handler, or hit a Go
runtime fault (index out of range / nil dereference). -/
inductive Outcome (H : Type) where
  | reject (status : Nat) (message : String)
  | invoke (handler : H)
  | fault (message : String)
deriving DecidableEq

/-- What the install-exchange handler does: write a failure response,
write the default success page, or stay silent because the post-install
callback suppressed the default page. -/
inductive InstallOutcome where
  | failure (status : Nat) (message : String)
  | successPage (html : String)
  | suppressed
deriving DecidableEq

/-- The result of the outbound OAuth2 token-exchange POST, as `appInstall`
observes it: transport failure, a body that fails to decode, or a decoded
`SlackOauth2Response`. -/
inductive OauthExchange where
  | transportError
  | badBody
  | response (r : SlackOauth2Response)

/-! ### Registries and token lookup -/

/-- Lookup in a Go map modelled as an association list. -/
def mapLookup {H : Type} (m : List (String × H)) (k : String) : Option H :=
  (m.find? (fun p => p.1 == k)).map (fun p => p.2)

/-- Go map insertion: replace the binding if the key is present. -/
def mapInsert {H : Type} (m : List (String × H)) (k : String) (v : H) : List (String × H) :=
  if m.any (fun p => p.1 == k) then m.map (fun p => if p.1 == k then (k, v) else p)
  else m ++ [(k, v)]

/-- SetTokens - Set token list. -/
def SlackApp.SetTokens {H : Type} (a : SlackApp H) (tokens : List SlackAuthToken) : SlackApp H :=
  { a with opts := { a.opts with Tokens := tokens } }

/-- AddToken - Add token to list. -/
def SlackApp.AddToken {H : Type} (a : SlackApp H) (token : SlackAuthToken) : SlackApp H :=
  { a with opts := { a.opts with Tokens := a.opts.Tokens ++ [token] } }

/-- OnCommand - Add handler to command. -/
def SlackApp.OnCommand {H : Type} (a : SlackApp H) (cmd : String) (handler : H) : SlackApp H :=
  { a with cmds := mapInsert a.cmds cmd handler }

/-- RemoveCommand - Remove a command from the app based on command. -/
def SlackApp.RemoveCommand {H : Type} (a : SlackApp H) (cmd : String) : SlackApp H :=
  { a with cmds := a.cmds.filter (fun p => !(p.1 == cmd)) }

/-- OnAction - Add an action handler to the app based on action_id. -/
def SlackApp.OnAction {H : Type} (a : SlackApp H) (actionID : String) (handler : H) : SlackApp H :=
  { a with actionListeners := mapInsert a.actionListeners actionID handler }

/-- OnShortcut - Add a shortcut handler to the app based on callback_id. -/
def SlackApp.OnShortcut {H : Type} (a : SlackApp H) (callbackID : String) (handler : H) : SlackApp H :=
  { a with shortcutListeners := mapInsert a.shortcutListeners callbackID handler }

/-- OnViewSubmission - Add handler to view submission based on callback_id. -/
def SlackApp.OnViewSubmission {H : Type} (a : SlackApp H) (callbackID : String) (handler : H) : SlackApp H :=
  { a with submitListeners := mapInsert a.submitListeners callbackID handler }

/-- OnViewClose - Add handler to view close based on callback_id. -/
def SlackApp.OnViewClose {H : Type} (a : SlackApp H) (callbackID : String) (handler : H) : SlackApp H :=
  { a with closeListeners := mapInsert a.closeListeners callbackID handler }

/-- OnAppInstall - Add handler to app distribution. -/
def SlackApp.OnAppInstall {H : Type} (a : SlackApp H) (cb : SlackOauth2Response → Bool) : SlackApp H :=
  { a with distCB := some cb }

/-- InitializeSlackApp - Return an instance of SlackApp. -/
def InitializeSlackApp {H : Type} (opts : SlackAppOptions) : SlackApp H :=
  { opts := { Name := opts.Name, Tokens := opts.Tokens, ClientSecret := opts.ClientSecret,
              ClientID := opts.ClientID, SigningSecret := opts.SigningSecret },
    distCB := none, cmds := [], shortcutListeners := [], actionListeners := [],
    submitListeners := [], closeListeners := [] }

/-- findTokenForWorkspace - Finding the token for the corresponding
workspace: a linear scan that stops at the first entry whose `Workspace`
field matches, and reports `none` when the loop finds nothing. -/
def findTokenForWorkspace (tokens : List SlackAuthToken) (workspace : String) :
    Option SlackAuthToken :=
  match tokens with
  | [] => none
  | t :: rest => if t.Workspace == workspace then some t else findTokenForWorkspace rest workspace

/-! ### Form-body parsing (model of Go's net/url ParseQuery / Values.Get) -/

/-- Go's strings.Cut at the first occurrence of a character: the part
before, the part after, and whether the character was found. -/
def cutChar (sep : Char) : List Char → List Char × List Char × Bool
  | [] => ([], [], false)
  | c :: cs =>
    if c == sep then ([], cs, true)
    else
      let r := cutChar sep cs
      (c :: r.1, r.2.1, r.2.2)

/-- Value of a hexadecimal digit character. -/
def unhex (c : Char) : Option Nat :=
  if 48 ≤ c.toNat ∧ c.toNat ≤ 57 then some (c.toNat - 48)
  else if 97 ≤ c.toNat ∧ c.toNat ≤ 102 then some (c.toNat - 87)
  else if 65 ≤ c.toNat ∧ c.toNat ≤ 70 then some (c.toNat - 55)
  else none

/-- Go's url.QueryUnescape: percent-escapes decode to bytes, a plus sign
decodes to a space, a malformed escape is an error. -/
def queryUnescape : List Char → Option (List Char)
  | [] => some []
  | '%' :: c1 :: c2 :: rest =>
    match unhex c1, unhex c2 with
    | some h1, some h2 => (queryUnescape rest).map (fun l => Char.ofNat (h1 * 16 + h2) :: l)
    | _, _ => none
  | '%' :: _ => none
  | '+' :: rest => (queryUnescape rest).map (fun l => ' ' :: l)
  | c :: rest => (queryUnescape rest).map (fun l => c :: l)

/-- One step of Go's url.parseQuery loop over a `&`-separated segment:
a segment containing `;` or failing to unescape sets the error flag and
is skipped; an empty segment is skipped; otherwise the segment is cut at
the first `=` and both halves are unescaped. -/
def parseQuerySeg (acc : List (String × String) × Bool) (seg : List Char) :
    List (String × String) × Bool :=
  if seg.contains ';' then (acc.1, true)
  else if seg.isEmpty then acc
  else
    let kv := cutChar '=' seg
    match queryUnescape kv.1, queryUnescape kv.2.1 with
    | some k, some v => (acc.1 ++ [(⟨k⟩, ⟨v⟩)], acc.2)
    | _, _ => (acc.1, true)

/-- Go's url.ParseQuery: split on `&`, parse each segment; `none` when
any segment produced an error (the caller only checks err != nil). -/
def parseQuery (s : String) : Option (List (String × String)) :=
  let r := (s.data.splitOn '&').foldl parseQuerySeg ([], false)
  if r.2 then none else some r.1

/-- Go's url.Values.Get: the first value recorded for a key, or "". -/
def valuesGet (m : List (String × String)) (key : String) : String :=
  match m.find? (fun p => p.1 == key) with
  | some p => p.2
  | none => ""

/-! ### Signature verification (loafer.go checkSlackSecret) -/

/-- checkSlackSecret - Checking the signing secret of slack request:
join "v0", timestamp and body with ":", HMAC-SHA256 it under the app's
signing secret, hex-encode, join "v0" and the digest with "=", and
compare with the header-supplied signature. -/
def SlackApp.checkSlackSecret {H : Type} (a : SlackApp H) (signing ts body : String) : Bool :=
  let data := goJoin ":" ["v0", ts, body]
  let signed := utf8Encode a.opts.SigningSecret
  let tested := hmacSha256 signed (utf8Encode data)
  let own := goJoin "=" ["v0", hexEncode tested]
  if own == signing then true else false

/-- The signature string exactly as the specification words it: "v0="
followed by the lowercase hex encoding of HMAC-SHA256 keyed by the
signing secret over the byte string "v0:" + timestamp + ":" + body. -/
def verifySpecSignature (secret ts body : String) : String :=
  "v0=" ++ hexEncode (hmacSha256 (utf8Encode secret) (utf8Encode ("v0:" ++ ts ++ ":" ++ body)))

/-! ### Install exchange (loafer.go appInstall) -/

/-- Modelled from the spec: the repository defines the constant
`INSTALLSUCCESSPAGE` (the fixed HTML success page whose
"\x7b\x7bAPP_NAME\x7d\x7d" placeholder `appInstall` interpolates) in a
source file that is not part of `src/`; only its use is visible.  The
spec pins down only that it is one fixed HTML page containing the
placeholder, which is all this development relies on. -/
def INSTALLSUCCESSPAGE : String :=
  "<html><head><title>Success</title></head><body><h2>\x7b\x7bAPP_NAME\x7d\x7d was installed successfully</h2></body></html>"

/-- appInstall - Handler for app distribution.  The outbound OAuth2 POST
and the JSON decoding of its body are external effects, supplied here as
an `OauthExchange` observation.  Returns what the handler writes and the
app state it leaves behind. -/
def SlackApp.appInstall {H : Type} (a : SlackApp H) (exchange : OauthExchange) :
    InstallOutcome × SlackApp H :=
  match exchange with
  | .transportError => (.failure 500 "Unable to authorize Slack App for workspace", a)
  | .badBody => (.failure 500 "Unable to get Slack OAuth2 Access Response for workspace", a)
  | .response installResponse =>
    if installResponse.Ok then
      match a.distCB with
      | some cb =>
        let a2 := a.AddToken { Workspace := installResponse.Team.ID,
                               Token := installResponse.AccessToken }
        let avoidDefaultPage := cb installResponse
        if !avoidDefaultPage then
          (.successPage (INSTALLSUCCESSPAGE.replace "\x7b\x7bAPP_NAME\x7d\x7d" a.opts.Name), a2)
        else
          (.suppressed, a2)
      | none =>
        (.successPage (INSTALLSUCCESSPAGE.replace "\x7b\x7bAPP_NAME\x7d\x7d" a.opts.Name), a)
    else
      (.failure 500 "Slack App Access Request is not Ok", a)

/-! ### The two dispatchers (loafer.go interactions / commands)

Both return the outcome and the app state after the request; the Go
functions never write to the shared app state, which the returned state
makes explicit.  JSON decoding of the `payload` form field into a
`SlackInteractionEvent` is Go's encoding/json, an external collaborator,
supplied as the `decodePayload` argument. -/

/-- interactions - Slack App interactions handler. -/
def SlackApp.interactions {H : Type} (a : SlackApp H)
    (decodePayload : String → Option SlackInteractionEvent) (req : Request) :
    Outcome H × SlackApp H :=
  match req.body with
  | none => (.reject 400 "Invalid Body", a)
  | some bodyText =>
    match parseQuery bodyText with
    | none => (.reject 400 "Invalid Form Body", a)
    | some queries =>
      if a.checkSlackSecret req.XSlackSignature req.XSlackRequestTimeStamp bodyText then
        match decodePayload (valuesGet queries "payload") with
        | none => (.reject 400 "Invalid JSON format", a)
        | some event =>
          match event.Team with
          | none => (.fault "invalid memory address or nil pointer dereference", a)
          | some team =>
            match findTokenForWorkspace a.opts.Tokens team.ID with
            | none => (.reject 400 "App not installed for workspace", a)
            | some _accessToken =>
              if event.type == "shortcut" then
                match mapLookup a.shortcutListeners event.CallbackID with
                | some handler => (.invoke handler, a)
                | none => (.reject 400 "Unrecognized shortcut callback_id", a)
              else if event.type == "block_actions" then
                match event.Actions with
                | [] => (.fault "index out of range", a)
                | action :: _ =>
                  match mapLookup a.actionListeners action.ActionID with
                  | some handler => (.invoke handler, a)
                  | none => (.reject 400 "Unrecognized action action_id", a)
              else if event.type == "view_submission" then
                match event.View with
                | none => (.fault "invalid memory address or nil pointer dereference", a)
                | some view =>
                  match mapLookup a.submitListeners view.CallbackID with
                  | some handler => (.invoke handler, a)
                  | none => (.reject 400 "Unrecognized view submission callback_id", a)
              else if event.type == "view_closed" then
                match event.View with
                | none => (.fault "invalid memory address or nil pointer dereference", a)
                | some view =>
                  match mapLookup a.closeListeners view.CallbackID with
                  | some handler => (.invoke handler, a)
                  | none => (.reject 400 "Unrecognized view closed callback_id", a)
              else
                (.reject 400 "Unrecognized interaction type", a)
      else
        (.reject 401 "Unauthorized", a)

/-- commands - Slack App commands handler, including the source's second
(post-context) nil test on the resolved token. -/
def SlackApp.commands {H : Type} (a : SlackApp H) (req : Request) :
    Outcome H × SlackApp H :=
  match req.body with
  | none => (.reject 400 "Invalid Body", a)
  | some bodyText =>
    match parseQuery bodyText with
    | none => (.reject 400 "Invalid Form Body", a)
    | some queries =>
      if a.checkSlackSecret req.XSlackSignature req.XSlackRequestTimeStamp bodyText then
        let accessToken := findTokenForWorkspace a.opts.Tokens (valuesGet queries "team_id")
        if accessToken.isNone then
          (.reject 400 "App not installed for workspace", a)
        else if accessToken.isNone then
          (.reject 400 "Unrecognized workspace", a)
        else
          match mapLookup a.cmds (valuesGet queries "command") with
          | some handler => (.invoke handler, a)
          | none => (.reject 400 "Unrecognized command", a)
      else
        (.reject 401 "Unauthorized", a)

/-! ### Helper lemmas -/

/-- The two joins in `checkSlackSecret` produce exactly the canonical
string and signature string of the specification. -/
lemma goJoin_colon (ts body : String) :
    goJoin ":" ["v0", ts, body] = "v0:" ++ ts ++ ":" ++ body := by
  simp [goJoin, String.ext_iff, String.data_append]

lemma goJoin_eq_sign (h : String) : goJoin "=" ["v0", h] = "v0=" ++ h := by
  simp [goJoin, String.ext_iff, String.data_append]

/-- `checkSlackSecret` is equality testing against the spec's reference
signature string. -/
lemma checkSlackSecret_spec {H : Type} (a : SlackApp H) (signing ts body : String) :
    a.checkSlackSecret signing ts body
      = (verifySpecSignature a.opts.SigningSecret ts body == signing) := by
  unfold SlackApp.checkSlackSecret verifySpecSignature
  simp only [goJoin_colon, goJoin_eq_sign]
  cases h : "v0=" ++ hexEncode (hmacSha256 (utf8Encode a.opts.SigningSecret)
      (utf8Encode ("v0:" ++ ts ++ ":" ++ body))) == signing <;>
    simp [h]

/-- A request signed with the reference construction for the app's own
signing secret passes `checkSlackSecret`. -/
lemma checkSlackSecret_of_secret {H : Type} (a : SlackApp H) (secret ts body : String)
    (h : a.opts.SigningSecret = secret) :
    a.checkSlackSecret (verifySpecSignature secret ts body) ts body = true := by
  rw [checkSlackSecret_spec, h]
  simp

/-- The reference signature string always starts with "v0=", so the
three-character header value "bad" never verifies. -/
lemma bad_ne_verifySpecSignature (secret ts body : String) :
    ("bad" : String) ≠ verifySpecSignature secret ts body := by
  intro h
  have h2 := congrArg String.data h
  rw [show (verifySpecSignature secret ts body).data
        = 'v' :: '0' :: '=' :: (hexEncode (hmacSha256 (utf8Encode secret)
            (utf8Encode ("v0:" ++ ts ++ ":" ++ body)))).data from rfl] at h2
  simp at h2

lemma checkSlackSecret_bad {H : Type} (a : SlackApp H) (ts body : String) :
    a.checkSlackSecret "bad" ts body = false := by
  rw [checkSlackSecret_spec]
  exact beq_eq_false_iff_ne.mpr fun h => bad_ne_verifySpecSignature _ ts body h.symm

/-- Splitting the scanned list splits the scan: the first half wins when
it matches, otherwise the scan continues in the second half. -/
lemma findTokenForWorkspace_append (l1 l2 : List SlackAuthToken) (W : String) :
    findTokenForWorkspace (l1 ++ l2) W
      = (findTokenForWorkspace l1 W).or (findTokenForWorkspace l2 W) := by
  induction l1 with
  | nil => simp [findTokenForWorkspace]
  | cons t rest ih =>
    by_cases h : t.Workspace == W <;> simp [findTokenForWorkspace, h, ih]

/-- The scan reports `none` exactly when no entry matches. -/
lemma findTokenForWorkspace_eq_none_iff (tokens : List SlackAuthToken) (W : String) :
    findTokenForWorkspace tokens W = none ↔ ∀ t ∈ tokens, t.Workspace ≠ W := by
  induction tokens with
  | nil => simp [findTokenForWorkspace]
  | cons t rest ih =>
    by_cases h : t.Workspace == W <;> simp_all [findTokenForWorkspace, h]

/-! ### Shared concrete fixtures for witnesses and counterexamples -/

/-- Options of the concrete test app (signing secret "s"). -/
def testOptions (tokens : List SlackAuthToken) : SlackAppOptions :=
  { Name := "Dev Bot", Tokens := tokens, ClientSecret := "cs", ClientID := "ci",
    SigningSecret := "s" }

/-- A concrete app with `Nat` handler ids: command "/ping" ↦ 5,
shortcut "sc" ↦ 1, action "act" ↦ 2, submission "vs" ↦ 3, close "vc" ↦ 4. -/
def testApp (tokens : List SlackAuthToken) : SlackApp Nat :=
  ((((InitializeSlackApp (testOptions tokens)).OnCommand "/ping" 5).OnShortcut
      "sc" 1).OnAction "act" 2).OnViewSubmission "vs" 3 |>.OnViewClose "vc" 4

/-! ### C3 -/

/-- C3 (confirmed): for all inputs, the signature verifier returns true
if and only if the provided signature equals "v0=" followed by the
lowercase hex encoding of HMAC-SHA256 keyed by the signing secret over
"v0:" + timestamp + ":" + body (`verifySpecSignature` spells out exactly
that reference construction); being a total Lean function it has no side
effects and no exception on any input. -/
theorem checkSlackSecret_true_iff_spec_signature {H : Type} (a : SlackApp H)
    (signing ts body : String) :
    a.checkSlackSecret signing ts body = true
      ↔ signing = verifySpecSignature a.opts.SigningSecret ts body := by
  rw [checkSlackSecret_spec, beq_iff_eq]
  exact eq_comm

/-! ### C10 -/

/-- C10 (confirmed): the Command Dispatcher's second nil test on the
resolved token is dead code — no input whatsoever makes `commands`
produce the 400 "Unrecognized workspace" response, because any request
reaching that test already passed the identical earlier test. -/
theorem commands_second_nil_check_unreachable {H : Type} (a : SlackApp H) (req : Request) :
    (a.commands req).1 ≠ Outcome.reject 400 "Unrecognized workspace" := by
  obtain ⟨sig, ts, body⟩ := req
  cases body with
  | none => simp [SlackApp.commands]
  | some bodyText =>
    cases hq : parseQuery bodyText with
    | none => simp [SlackApp.commands, hq]
    | some queries =>
      simp only [SlackApp.commands, hq]
      cases hs : a.checkSlackSecret sig ts bodyText with
      | false => simp
      | true =>
        simp only [if_true]
        cases hacc : (findTokenForWorkspace a.opts.Tokens (valuesGet queries "team_id")).isNone with
        | true => simp [hacc]
        | false =>
          cases hl : mapLookup a.cmds (valuesGet queries "command") with
          | none => simp [hacc, hl]
          | some handler => simp [hacc, hl]

/-- C10 witness: the unreachability at a concrete app and request. -/
theorem commands_second_nil_check_unreachable_witness :
    ((testApp [⟨"T1", "tok"⟩]).commands ⟨"bad", "1000", some "team_id=T1"⟩).1
      ≠ Outcome.reject 400 "Unrecognized workspace" :=
  commands_second_nil_check_unreachable (testApp [⟨"T1", "tok"⟩])
    ⟨"bad", "1000", some "team_id=T1"⟩

/-! ### C6 -/

/-- C6 counterexample: with an entry for workspace "W" already present,
registering a second token for "W" and looking "W" up returns the old
token, not the newly registered one — refuting the claim's unconditional
round-trip. -/
theorem find_after_addToken_counterexample :
    findTokenForWorkspace (((testApp [⟨"W", "old"⟩]).AddToken ⟨"W", "new"⟩).opts.Tokens) "W"
        = some ⟨"W", "old"⟩
    ∧ findTokenForWorkspace (((testApp [⟨"W", "old"⟩]).AddToken ⟨"W", "new"⟩).opts.Tokens) "W"
        ≠ some ⟨"W", "new"⟩ := by
  constructor <;> decide

/-- C6 (amended): registering `⟨W, t⟩` via `AddToken` and then calling
`findTokenForWorkspace` on `W` returns that token provided `W` was not
already registered; lookup of an unregistered workspace returns `none`
(never a fallback); and the scan always returns the first matching entry
in insertion order. -/
theorem token_registry_roundtrip {H : Type} (a : SlackApp H) (W t : String) :
    (findTokenForWorkspace a.opts.Tokens W = none →
       findTokenForWorkspace ((a.AddToken ⟨W, t⟩).opts.Tokens) W = some ⟨W, t⟩)
    ∧ (∀ tokens : List SlackAuthToken,
         findTokenForWorkspace tokens W = none ↔ ∀ tok ∈ tokens, tok.Workspace ≠ W)
    ∧ (∀ l1 l2 : List SlackAuthToken, (∀ tok ∈ l1, tok.Workspace ≠ W) →
         findTokenForWorkspace (l1 ++ ⟨W, t⟩ :: l2) W = some ⟨W, t⟩) := by
  refine ⟨fun h => ?_, fun tokens => findTokenForWorkspace_eq_none_iff tokens W,
          fun l1 l2 h => ?_⟩
  · show findTokenForWorkspace (a.opts.Tokens ++ [⟨W, t⟩]) W = some ⟨W, t⟩
    rw [findTokenForWorkspace_append, h]
    simp [findTokenForWorkspace]
  · rw [findTokenForWorkspace_append, (findTokenForWorkspace_eq_none_iff l1 W).mpr h]
    simp [findTokenForWorkspace]

/-- C6 witness: the amended round-trip, `none` for an absent workspace,
and first-match-in-insertion-order at concrete registries. -/
theorem token_registry_roundtrip_witness :
    findTokenForWorkspace (((testApp []).AddToken ⟨"T", "tok"⟩).opts.Tokens) "T"
        = some ⟨"T", "tok"⟩
    ∧ (findTokenForWorkspace [⟨"A", "x"⟩] "B" = none
        ↔ ∀ tok ∈ [(⟨"A", "x"⟩ : SlackAuthToken)], tok.Workspace ≠ "B")
    ∧ findTokenForWorkspace ([⟨"A", "x"⟩] ++ ⟨"B", "y"⟩ :: [⟨"B", "z"⟩]) "B"
        = some ⟨"B", "y"⟩ :=
  ⟨(token_registry_roundtrip (testApp []) "T" "tok").1 (by decide),
   (token_registry_roundtrip (testApp []) "B" "y").2.1 [⟨"A", "x"⟩],
   (token_registry_roundtrip (testApp []) "B" "y").2.2 [⟨"A", "x"⟩] [⟨"B", "z"⟩] (by decide)⟩

/-! ### C1 -/

/-- C1 counterexample: a request whose form body is malformed ("a=%zz")
and whose signature header ("bad") does not verify is answered 400
"Invalid Form Body", not 401 — refuting the claim that authentication
precedes all other processing and that every badly signed request gets
401 regardless of the shape of its body. -/
theorem invalid_form_body_beats_unauthorized :
    ((testApp [⟨"T1", "tok"⟩]).interactions (fun _ => none)
        ⟨"bad", "1000", some "a=%zz"⟩).1 = Outcome.reject 400 "Invalid Form Body"
    ∧ (testApp [⟨"T1", "tok"⟩]).checkSlackSecret "bad" "1000" "a=%zz" = false :=
  ⟨rfl, checkSlackSecret_bad _ "1000" "a=%zz"⟩

/-- C1 (amended): body reading and form parsing run before
authentication, so only a request whose body arrives and parses as a
form is subject to the signature check; for every such request with an
invalid signature, both dispatchers answer 401 Unauthorized and invoke
no handler. -/
theorem invalid_signature_rejected_401 {H : Type} (a : SlackApp H)
    (decodePayload : String → Option SlackInteractionEvent) (sig ts body : String)
    (queries : List (String × String))
    (hparse : parseQuery body = some queries)
    (hsig : a.checkSlackSecret sig ts body = false) :
    (a.interactions decodePayload ⟨sig, ts, some body⟩).1 = Outcome.reject 401 "Unauthorized"
    ∧ (a.commands ⟨sig, ts, some body⟩).1 = Outcome.reject 401 "Unauthorized" := by
  constructor <;> simp [SlackApp.interactions, SlackApp.commands, hparse, hsig]

/-- C1 witness: a well-formed form body with a bad signature is answered
401 by both dispatchers. -/
theorem invalid_signature_rejected_401_witness :
    parseQuery "team_id=T1" = some [("team_id", "T1")]
    ∧ (testApp [⟨"T1", "tok"⟩]).checkSlackSecret "bad" "1000" "team_id=T1" = false
    ∧ ((testApp [⟨"T1", "tok"⟩]).interactions (fun _ => none)
        ⟨"bad", "1000", some "team_id=T1"⟩).1 = Outcome.reject 401 "Unauthorized"
    ∧ ((testApp [⟨"T1", "tok"⟩]).commands ⟨"bad", "1000", some "team_id=T1"⟩).1
        = Outcome.reject 401 "Unauthorized" :=
  ⟨rfl, checkSlackSecret_bad _ "1000" "team_id=T1",
   (invalid_signature_rejected_401 (testApp [⟨"T1", "tok"⟩]) (fun _ => none)
      "bad" "1000" "team_id=T1" [("team_id", "T1")] rfl
      (checkSlackSecret_bad _ "1000" "team_id=T1")).1,
   (invalid_signature_rejected_401 (testApp [⟨"T1", "tok"⟩]) (fun _ => none)
      "bad" "1000" "team_id=T1" [("team_id", "T1")] rfl
      (checkSlackSecret_bad _ "1000" "team_id=T1")).2⟩

/-! ### C2 -/

/-- A decoded OAuth2 access response with ok = true, team id "T9" and
access token "tok". -/
def installResponseT9 : SlackOauth2Response :=
  { Ok := true, AccessToken := "tok", TokenType := "bot", Scope := "", BotUserID := "",
    AppID := "", Team := ⟨"Team Nine", "T9"⟩, Enterprise := ⟨"", ""⟩,
    AuthedUser := ⟨"", "", "", ""⟩ }

/-- C2: with no post-install callback registered, an install exchange
whose decoded response has ok = true, team id "T9" and token "tok"
writes the default success page yet registers no token — `AddToken` is
reached only inside the `distCB != nil` branch, so a subsequent lookup of
"T9" fails even though the user just saw the success page. -/
theorem install_ok_without_callback_adds_no_token :
    ((testApp []).appInstall (.response installResponseT9)).2 = testApp []
    ∧ findTokenForWorkspace
        (((testApp []).appInstall (.response installResponseT9)).2.opts.Tokens) "T9" = none
    ∧ ((testApp []).appInstall (.response installResponseT9)).1
        = InstallOutcome.successPage
            (INSTALLSUCCESSPAGE.replace "\x7b\x7bAPP_NAME\x7d\x7d" (testApp []).opts.Name) :=
  ⟨rfl, rfl, rfl⟩

/-! ### C4 -/

/-- C4 (confirmed): an authenticated, well-formed request whose team id
resolves to no registry entry is answered 400 "App not installed for
workspace" with no handler invoked, in the Event Dispatcher (team id
from the decoded payload) as well as in the Command Dispatcher (team id
from the team_id form field); the check sits before handler dispatch of
every category. -/
theorem unresolved_tenant_rejected {H : Type} (a : SlackApp H) :
    (∀ (decodePayload : String → Option SlackInteractionEvent) (sig ts body : String)
       (queries : List (String × String)) (event : SlackInteractionEvent)
       (team : SlackInteractionTeam),
        parseQuery body = some queries →
        a.checkSlackSecret sig ts body = true →
        decodePayload (valuesGet queries "payload") = some event →
        event.Team = some team →
        findTokenForWorkspace a.opts.Tokens team.ID = none →
        (a.interactions decodePayload ⟨sig, ts, some body⟩).1
          = Outcome.reject 400 "App not installed for workspace")
    ∧ (∀ (sig ts body : String) (queries : List (String × String)),
        parseQuery body = some queries →
        a.checkSlackSecret sig ts body = true →
        findTokenForWorkspace a.opts.Tokens (valuesGet queries "team_id") = none →
        (a.commands ⟨sig, ts, some body⟩).1
          = Outcome.reject 400 "App not installed for workspace") := by
  constructor
  · intro dec sig ts body queries event team hp hs hd ht hf
    simp [SlackApp.interactions, hp, hs, hd, ht, hf]
  · intro sig ts body queries hp hs hf
    simp [SlackApp.commands, hp, hs, hf]

/-- The decoded payload used in the C4 witness: a shortcut event from
the unregistered workspace "T2". -/
def eventT2 : SlackInteractionEvent :=
  { type := "shortcut", Token := "", TriggerID := "", Team := some ⟨"T2", ""⟩,
    Actions := [], View := none, CallbackID := "sc" }

/-- C4 witness: with only "T1" registered, a correctly signed request
for workspace "T2" is rejected 400 by both dispatchers. -/
theorem unresolved_tenant_rejected_witness :
    ((testApp [⟨"T1", "tok"⟩]).interactions (fun _ => some eventT2)
        ⟨verifySpecSignature "s" "1000" "payload=x", "1000", some "payload=x"⟩).1
      = Outcome.reject 400 "App not installed for workspace"
    ∧ ((testApp [⟨"T1", "tok"⟩]).commands
        ⟨verifySpecSignature "s" "1000" "team_id=T2", "1000", some "team_id=T2"⟩).1
      = Outcome.reject 400 "App not installed for workspace" :=
  ⟨(unresolved_tenant_rejected (testApp [⟨"T1", "tok"⟩])).1 (fun _ => some eventT2)
      (verifySpecSignature "s" "1000" "payload=x") "1000" "payload=x"
      [("payload", "x")] eventT2 ⟨"T2", ""⟩ rfl
      (checkSlackSecret_of_secret _ "s" "1000" "payload=x" rfl) rfl rfl (by decide),
   (unresolved_tenant_rejected (testApp [⟨"T1", "tok"⟩])).2
      (verifySpecSignature "s" "1000" "team_id=T2") "1000" "team_id=T2"
      [("team_id", "T2")] rfl
      (checkSlackSecret_of_secret _ "s" "1000" "team_id=T2" rfl) (by decide)⟩

/-! ### C5 -/

/-- C5 (confirmed): for an authenticated, tenant-resolved request of a
recognized category, a key registered in that category's registry makes
the dispatcher invoke exactly the handler registered there (the outcome
carries that one handler and no other); an unregistered key of a
recognized category yields 400 with the category-specific message and no
invocation; an event whose type is none of the four categories yields
400 "Unrecognized interaction type"; and the command path behaves the
same over the command registry. -/
theorem dispatch_exactly_one {H : Type} (a : SlackApp H) :
    (∀ (decodePayload : String → Option SlackInteractionEvent) (sig ts body : String)
       (queries : List (String × String)) (event : SlackInteractionEvent)
       (team : SlackInteractionTeam) (tok : SlackAuthToken),
        parseQuery body = some queries →
        a.checkSlackSecret sig ts body = true →
        decodePayload (valuesGet queries "payload") = some event →
        event.Team = some team →
        findTokenForWorkspace a.opts.Tokens team.ID = some tok →
        ((∀ h, event.type = "shortcut" →
            mapLookup a.shortcutListeners event.CallbackID = some h →
            (a.interactions decodePayload ⟨sig, ts, some body⟩).1 = Outcome.invoke h)
         ∧ (event.type = "shortcut" →
            mapLookup a.shortcutListeners event.CallbackID = none →
            (a.interactions decodePayload ⟨sig, ts, some body⟩).1
              = Outcome.reject 400 "Unrecognized shortcut callback_id")
         ∧ (∀ h action rest, event.type = "block_actions" →
            event.Actions = action :: rest →
            mapLookup a.actionListeners action.ActionID = some h →
            (a.interactions decodePayload ⟨sig, ts, some body⟩).1 = Outcome.invoke h)
         ∧ (∀ action rest, event.type = "block_actions" →
            event.Actions = action :: rest →
            mapLookup a.actionListeners action.ActionID = none →
            (a.interactions decodePayload ⟨sig, ts, some body⟩).1
              = Outcome.reject 400 "Unrecognized action action_id")
         ∧ (∀ h view, event.type = "view_submission" → event.View = some view →
            mapLookup a.submitListeners view.CallbackID = some h →
            (a.interactions decodePayload ⟨sig, ts, some body⟩).1 = Outcome.invoke h)
         ∧ (∀ view, event.type = "view_submission" → event.View = some view →
            mapLookup a.submitListeners view.CallbackID = none →
            (a.interactions decodePayload ⟨sig, ts, some body⟩).1
              = Outcome.reject 400 "Unrecognized view submission callback_id")
         ∧ (∀ h view, event.type = "view_closed" → event.View = some view →
            mapLookup a.closeListeners view.CallbackID = some h →
            (a.interactions decodePayload ⟨sig, ts, some body⟩).1 = Outcome.invoke h)
         ∧ (∀ view, event.type = "view_closed" → event.View = some view →
            mapLookup a.closeListeners view.CallbackID = none →
            (a.interactions decodePayload ⟨sig, ts, some body⟩).1
              = Outcome.reject 400 "Unrecognized view closed callback_id")
         ∧ (event.type ≠ "shortcut" → event.type ≠ "block_actions" →
            event.type ≠ "view_submission" → event.type ≠ "view_closed" →
            (a.interactions decodePayload ⟨sig, ts, some body⟩).1
              = Outcome.reject 400 "Unrecognized interaction type")))
    ∧ (∀ (sig ts body : String) (queries : List (String × String)) (tok : SlackAuthToken),
        parseQuery body = some queries →
        a.checkSlackSecret sig ts body = true →
        findTokenForWorkspace a.opts.Tokens (valuesGet queries "team_id") = some tok →
        ((∀ h, mapLookup a.cmds (valuesGet queries "command") = some h →
            (a.commands ⟨sig, ts, some body⟩).1 = Outcome.invoke h)
         ∧ (mapLookup a.cmds (valuesGet queries "command") = none →
            (a.commands ⟨sig, ts, some body⟩).1
              = Outcome.reject 400 "Unrecognized command"))) := by
  constructor
  · intro dec sig ts body queries event team tok hp hs hd ht hf
    refine ⟨fun h hty hl => ?_, fun hty hl => ?_,
            fun h action rest hty hact hl => ?_, fun action rest hty hact hl => ?_,
            fun h view hty hv hl => ?_, fun view hty hv hl => ?_,
            fun h view hty hv hl => ?_, fun view hty hv hl => ?_,
            fun h1 h2 h3 h4 => ?_⟩ <;>
      simp_all [SlackApp.interactions]
  · intro sig ts body queries tok hp hs hf
    refine ⟨fun h hl => ?_, fun hl => ?_⟩ <;> simp_all [SlackApp.commands]

/-- Decoded payload for the C5 witness: a shortcut with registered
callback id "sc". -/
def eventShortcut : SlackInteractionEvent :=
  { type := "shortcut", Token := "", TriggerID := "", Team := some ⟨"T1", ""⟩,
    Actions := [], View := none, CallbackID := "sc" }

/-- Decoded payload for the C5 witness: a shortcut with unregistered
callback id "nope". -/
def eventShortcutUnknown : SlackInteractionEvent :=
  { type := "shortcut", Token := "", TriggerID := "", Team := some ⟨"T1", ""⟩,
    Actions := [], View := none, CallbackID := "nope" }

/-- Decoded payload for the C5 witness: an event of unrecognized type. -/
def eventWeird : SlackInteractionEvent :=
  { type := "weird", Token := "", TriggerID := "", Team := some ⟨"T1", ""⟩,
    Actions := [], View := none, CallbackID := "" }

/-- C5 witness: on the concrete app, a registered shortcut dispatches to
its handler (id 1), an unregistered shortcut key is rejected 400, an
unrecognized type is rejected 400, and the registered slash command
(sent percent-encoded as %2Fping) dispatches to its handler (id 5). -/
theorem dispatch_exactly_one_witness :
    ((testApp [⟨"T1", "tok"⟩]).interactions (fun _ => some eventShortcut)
        ⟨verifySpecSignature "s" "1000" "payload=x", "1000", some "payload=x"⟩).1
      = Outcome.invoke 1
    ∧ ((testApp [⟨"T1", "tok"⟩]).interactions (fun _ => some eventShortcutUnknown)
        ⟨verifySpecSignature "s" "1000" "payload=x", "1000", some "payload=x"⟩).1
      = Outcome.reject 400 "Unrecognized shortcut callback_id"
    ∧ ((testApp [⟨"T1", "tok"⟩]).interactions (fun _ => some eventWeird)
        ⟨verifySpecSignature "s" "1000" "payload=x", "1000", some "payload=x"⟩).1
      = Outcome.reject 400 "Unrecognized interaction type"
    ∧ ((testApp [⟨"T1", "tok"⟩]).commands
        ⟨verifySpecSignature "s" "1000" "team_id=T1&command=%2Fping", "1000",
         some "team_id=T1&command=%2Fping"⟩).1
      = Outcome.invoke 5 :=
  ⟨((dispatch_exactly_one (testApp [⟨"T1", "tok"⟩])).1 (fun _ => some eventShortcut)
      (verifySpecSignature "s" "1000" "payload=x") "1000" "payload=x"
      [("payload", "x")] eventShortcut ⟨"T1", ""⟩ ⟨"T1", "tok"⟩ rfl
      (checkSlackSecret_of_secret _ "s" "1000" "payload=x" rfl) rfl rfl
      (by decide)).1 1 rfl (by decide),
   ((dispatch_exactly_one (testApp [⟨"T1", "tok"⟩])).1 (fun _ => some eventShortcutUnknown)
      (verifySpecSignature "s" "1000" "payload=x") "1000" "payload=x"
      [("payload", "x")] eventShortcutUnknown ⟨"T1", ""⟩ ⟨"T1", "tok"⟩ rfl
      (checkSlackSecret_of_secret _ "s" "1000" "payload=x" rfl) rfl rfl
      (by decide)).2.1 rfl (by decide),
   ((dispatch_exactly_one (testApp [⟨"T1", "tok"⟩])).1 (fun _ => some eventWeird)
      (verifySpecSignature "s" "1000" "payload=x") "1000" "payload=x"
      [("payload", "x")] eventWeird ⟨"T1", ""⟩ ⟨"T1", "tok"⟩ rfl
      (checkSlackSecret_of_secret _ "s" "1000" "payload=x" rfl) rfl rfl
      (by decide)).2.2.2.2.2.2.2.2 (by decide) (by decide) (by decide) (by decide),
   ((dispatch_exactly_one (testApp [⟨"T1", "tok"⟩])).2
      (verifySpecSignature "s" "1000" "team_id=T1&command=%2Fping") "1000"
      "team_id=T1&command=%2Fping" [("team_id", "T1"), ("command", "/ping")]
      ⟨"T1", "tok"⟩ rfl
      (checkSlackSecret_of_secret _ "s" "1000" "team_id=T1&command=%2Fping" rfl)
      (by decide)).1 5 (by decide)⟩

/-! ### C7 -/

/-- The decoded payload of the C7 failing input: an authenticated,
tenant-resolved block_actions event whose actions sequence is empty. -/
def eventEmptyActions : SlackInteractionEvent :=
  { type := "block_actions", Token := "", TriggerID := "", Team := some ⟨"T1", ""⟩,
    Actions := [], View := none, CallbackID := "" }

/-- C7: evaluating the dispatcher at the failing input — an
authenticated, tenant-resolved block_actions event with an empty actions
sequence — reaches the unguarded indexing of actions[0] and faults
(Go panics with index out of range) instead of rejecting with 400. -/
theorem block_actions_empty_actions_faults :
    ((testApp [⟨"T1", "tok"⟩]).interactions (fun _ => some eventEmptyActions)
        ⟨verifySpecSignature "s" "1000" "payload=x", "1000", some "payload=x"⟩).1
      = Outcome.fault "index out of range" := by
  have hp : parseQuery "payload=x" = some [("payload", "x")] := rfl
  have hs := checkSlackSecret_of_secret (testApp [⟨"T1", "tok"⟩]) "s" "1000" "payload=x" rfl
  have hf : findTokenForWorkspace ((testApp [⟨"T1", "tok"⟩]).opts.Tokens) "T1"
      = some ⟨"T1", "tok"⟩ := rfl
  simp [SlackApp.interactions, hp, hs, hf, eventEmptyActions]

/-! ### C8 -/

/-- On the block_actions path the dispatch outcome is a function of the
first action's action_id alone. -/
lemma interactions_block_actions_eq {H : Type} (a : SlackApp H)
    (decodePayload : String → Option SlackInteractionEvent) (sig ts body : String)
    (queries : List (String × String)) (event : SlackInteractionEvent)
    (team : SlackInteractionTeam) (tok : SlackAuthToken)
    (action : SlackInteractionAction) (rest : List SlackInteractionAction)
    (hp : parseQuery body = some queries)
    (hs : a.checkSlackSecret sig ts body = true)
    (hd : decodePayload (valuesGet queries "payload") = some event)
    (ht : event.Team = some team)
    (hf : findTokenForWorkspace a.opts.Tokens team.ID = some tok)
    (hty : event.type = "block_actions")
    (hact : event.Actions = action :: rest) :
    (a.interactions decodePayload ⟨sig, ts, some body⟩).1
      = match mapLookup a.actionListeners action.ActionID with
        | some h => Outcome.invoke h
        | none => Outcome.reject 400 "Unrecognized action action_id" := by
  cases hl : mapLookup a.actionListeners action.ActionID <;>
    simp_all [SlackApp.interactions]

/-- C8 (confirmed): for an authenticated, tenant-resolved block_actions
event with a non-empty actions sequence, the outcome is exactly the
lookup of the first action's action_id in the action registry (invoke
the registered handler, else 400), and any two such payloads that agree
on actions[0] — regardless of their remaining actions, decoder, body or
team — produce the same outcome. -/
theorem block_actions_first_action_only {H : Type} (a : SlackApp H)
    (decodePayload : String → Option SlackInteractionEvent) (sig ts body : String)
    (queries : List (String × String)) (event : SlackInteractionEvent)
    (team : SlackInteractionTeam) (tok : SlackAuthToken)
    (action : SlackInteractionAction) (rest : List SlackInteractionAction)
    (hp : parseQuery body = some queries)
    (hs : a.checkSlackSecret sig ts body = true)
    (hd : decodePayload (valuesGet queries "payload") = some event)
    (ht : event.Team = some team)
    (hf : findTokenForWorkspace a.opts.Tokens team.ID = some tok)
    (hty : event.type = "block_actions")
    (hact : event.Actions = action :: rest) :
    ((a.interactions decodePayload ⟨sig, ts, some body⟩).1
       = match mapLookup a.actionListeners action.ActionID with
         | some h => Outcome.invoke h
         | none => Outcome.reject 400 "Unrecognized action action_id")
    ∧ (∀ (decode2 : String → Option SlackInteractionEvent) (sig2 ts2 body2 : String)
         (queries2 : List (String × String)) (event2 : SlackInteractionEvent)
         (team2 : SlackInteractionTeam) (tok2 : SlackAuthToken)
         (rest2 : List SlackInteractionAction),
        parseQuery body2 = some queries2 →
        a.checkSlackSecret sig2 ts2 body2 = true →
        decode2 (valuesGet queries2 "payload") = some event2 →
        event2.Team = some team2 →
        findTokenForWorkspace a.opts.Tokens team2.ID = some tok2 →
        event2.type = "block_actions" →
        event2.Actions = action :: rest2 →
        (a.interactions decode2 ⟨sig2, ts2, some body2⟩).1
          = (a.interactions decodePayload ⟨sig, ts, some body⟩).1) :=
  ⟨interactions_block_actions_eq a decodePayload sig ts body queries event team tok
      action rest hp hs hd ht hf hty hact,
   fun decode2 sig2 ts2 body2 queries2 event2 team2 tok2 rest2
       hp2 hs2 hd2 ht2 hf2 hty2 hact2 =>
     (interactions_block_actions_eq a decode2 sig2 ts2 body2 queries2 event2 team2 tok2
        action rest2 hp2 hs2 hd2 ht2 hf2 hty2 hact2).trans
       (interactions_block_actions_eq a decodePayload sig ts body queries event team tok
          action rest hp hs hd ht hf hty hact).symm⟩

/-- First action of the C8 witness payloads (registered id "act"). -/
def actionClick : SlackInteractionAction :=
  { ActionID := "act", BlockID := "", Value := "", type := "button", ActionTS := "" }

/-- A second, differing action present only in the second payload. -/
def actionOther : SlackInteractionAction :=
  { ActionID := "other", BlockID := "", Value := "", type := "button", ActionTS := "" }

/-- C8 witness payload with a single action. -/
def eventActs1 : SlackInteractionEvent :=
  { type := "block_actions", Token := "", TriggerID := "", Team := some ⟨"T1", ""⟩,
    Actions := [actionClick], View := none, CallbackID := "" }

/-- C8 witness payload agreeing on actions[0] but carrying an extra
action. -/
def eventActs2 : SlackInteractionEvent :=
  { type := "block_actions", Token := "", TriggerID := "", Team := some ⟨"T1", ""⟩,
    Actions := [actionClick, actionOther], View := none, CallbackID := "" }

/-- C8 witness: the two payloads agreeing on actions[0] but differing in
the remaining actions produce identical outcomes. -/
theorem block_actions_first_action_only_witness :
    ((testApp [⟨"T1", "tok"⟩]).interactions (fun _ => some eventActs2)
        ⟨verifySpecSignature "s" "1000" "payload=x", "1000", some "payload=x"⟩).1
      = ((testApp [⟨"T1", "tok"⟩]).interactions (fun _ => some eventActs1)
        ⟨verifySpecSignature "s" "1000" "payload=x", "1000", some "payload=x"⟩).1 :=
  (block_actions_first_action_only (testApp [⟨"T1", "tok"⟩]) (fun _ => some eventActs1)
      (verifySpecSignature "s" "1000" "payload=x") "1000" "payload=x"
      [("payload", "x")] eventActs1 ⟨"T1", ""⟩ ⟨"T1", "tok"⟩ actionClick [] rfl
      (checkSlackSecret_of_secret _ "s" "1000" "payload=x" rfl) rfl rfl
      (by decide) rfl rfl).2
    (fun _ => some eventActs2) (verifySpecSignature "s" "1000" "payload=x") "1000"
    "payload=x" [("payload", "x")] eventActs2 ⟨"T1", ""⟩ ⟨"T1", "tok"⟩ [actionOther] rfl
    (checkSlackSecret_of_secret _ "s" "1000" "payload=x" rfl) rfl rfl
    (by decide) rfl rfl

/-! ### C9 -/

/-- The Event Dispatcher never writes to the shared app state. -/
lemma interactions_state_eq {H : Type} (a : SlackApp H)
    (decodePayload : String → Option SlackInteractionEvent) (req : Request) :
    (a.interactions decodePayload req).2 = a := by
  obtain ⟨sig, ts, body⟩ := req
  unfold SlackApp.interactions
  repeat' split <;> try rfl

/-- The Command Dispatcher never writes to the shared app state. -/
lemma commands_state_eq {H : Type} (a : SlackApp H) (req : Request) :
    (a.commands req).2 = a := by
  obtain ⟨sig, ts, body⟩ := req
  unfold SlackApp.commands
  dsimp only
  repeat' split <;> try rfl

/-- C9 (confirmed): every request that ends rejected leaves the token
sequence and all five handler registries untouched — the two dispatchers
return the app state unchanged on every rejection (indeed they never
write it), and an install exchange whose transport fails, whose body
fails to decode, or whose result is not ok (all the 500 paths) adds no
token. -/
theorem rejected_requests_preserve_state {H : Type} (a : SlackApp H) :
    (∀ (decodePayload : String → Option SlackInteractionEvent) (req : Request)
       (s : Nat) (m : String),
        (a.interactions decodePayload req).1 = Outcome.reject s m →
        (a.interactions decodePayload req).2 = a)
    ∧ (∀ (req : Request) (s : Nat) (m : String),
        (a.commands req).1 = Outcome.reject s m → (a.commands req).2 = a)
    ∧ (∀ (exchange : OauthExchange) (s : Nat) (m : String),
        (a.appInstall exchange).1 = InstallOutcome.failure s m →
        (a.appInstall exchange).2 = a) := by
  refine ⟨fun dec req _ _ _ => interactions_state_eq a dec req,
          fun req _ _ _ => commands_state_eq a req,
          fun exchange s m h => ?_⟩
  cases exchange with
  | transportError => rfl
  | badBody => rfl
  | response r =>
    by_cases hok : r.Ok
    · cases hcb : a.distCB with
      | none => simp [SlackApp.appInstall, hok, hcb]
      | some cb =>
        exfalso
        cases hbr : cb r <;> simp [SlackApp.appInstall, hok, hcb, hbr] at h
    · simp [SlackApp.appInstall, hok]

/-- C9 witness: concrete rejected requests (unreadable body on both
dispatchers, transport failure on install) leave the concrete app
unchanged. -/
theorem rejected_requests_preserve_state_witness :
    ((testApp []).interactions (fun _ => none) ⟨"bad", "1000", none⟩).2 = testApp []
    ∧ ((testApp []).commands ⟨"bad", "1000", none⟩).2 = testApp []
    ∧ ((testApp []).appInstall .transportError).2 = testApp [] :=
  ⟨(rejected_requests_preserve_state (testApp [])).1 (fun _ => none)
      ⟨"bad", "1000", none⟩ 400 "Invalid Body" rfl,
   (rejected_requests_preserve_state (testApp [])).2.1
      ⟨"bad", "1000", none⟩ 400 "Invalid Body" rfl,
   (rejected_requests_preserve_state (testApp [])).2.2 .transportError
      500 "Unable to authorize Slack App for workspace" rfl⟩

/-- C3 witness: the verifier accepts a concrete correctly-constructed
signature. -/
theorem checkSlackSecret_true_iff_spec_signature_witness :
    (testApp []).checkSlackSecret (verifySpecSignature "s" "1000" "team_id=T1")
      "1000" "team_id=T1" = true :=
  (checkSlackSecret_true_iff_spec_signature (testApp [])
    (verifySpecSignature "s" "1000" "team_id=T1") "1000" "team_id=T1").mpr rfl
